import Mathlib

/-!
Shallow embedding of `src/idx.py` (parcel-zoning resolver: tier-1 SQLite
lookup with a browser-scraping fallback).  Pure logic (the BeautifulSoup
table extraction, the session-broker response handling, the control flow of
the orchestrator and the FastAPI handler) is translated directly; every
external effect (HTTP call, Playwright await, sqlite fetch, LLM call) is an
input supplied by an explicit "world" record, carrying either its success
value or the exception it raises.  Exceptions are modelled with `Except`;
`finally`/`except` blocks are modelled by explicit matches on the result of
the guarded region.  Resource events (browser opened, `browser.close()`
calls, screenshot attempts) are recorded in a trace returned next to the
result.
-/

/-- Python exceptions that the embedded code can raise.  Messages keep the
shape of the CPython text (quote characters around names are omitted). -/
inductive PyErr
  | indexError
  | attributeError (attr : String)
  | valueError (lit : String)
  | keyError (key : String)
  | jsonDecodeError
  | exception (msg : String)
  | external (msg : String)
  deriving DecidableEq

/-- Python `str(e)`: the message used when an exception is rendered into the
`{"error": str(e)}` payload (idx.py line 283). -/
def PyErr.str : PyErr → String
  | .indexError => "Cannot choose from an empty sequence"
  | .attributeError a => "NoneType object has no attribute " ++ a
  | .valueError lit => "invalid literal for int() with base 10: " ++ lit
  | .keyError k => k
  | .jsonDecodeError => "Expecting value: line 1 column 1 (char 0)"
  | .exception m => m
  | .external m => m

/-- Helper: does `pat` occur at the start of `s`? (over char lists). -/
def listStarts : List Char → List Char → Bool
  | _, [] => true
  | [], _ :: _ => false
  | c :: cs, p :: ps => c == p && listStarts cs ps

/-- Helper: does `pat` occur anywhere inside `s`? (over char lists). -/
def listHasInfix : List Char → List Char → Bool
  | [], pat => pat.isEmpty
  | c :: cs, pat => listStarts (c :: cs) pat || listHasInfix cs pat

/-- Python `pat in s` on strings (substring test). -/
def strContains (s pat : String) : Bool :=
  listHasInfix s.data pat.data

/-- Python `str.strip()` / BeautifulSoup `get_text(strip=True)` for a cell
holding a single text fragment: drop leading and trailing whitespace. -/
def pyStrip (s : String) : String :=
  ⟨((s.data.dropWhile Char.isWhitespace).reverse.dropWhile Char.isWhitespace).reverse⟩

/-- Python `s.replace(" ", "")` (idx.py line 213): remove every space. -/
def removeSpaces (s : String) : String :=
  ⟨s.data.filter (fun c => c != ' ')⟩

/-- A `<td>` cell of the parsed report table: its `rowspan` attribute (an
attribute string when present, as returned by `tag.get('rowspan')`) and its
text content (`get_text()`).  Cells are modelled text-only; bs4 tag
truthiness (`__len__` over children) is therefore nonempty text. -/
structure Cell where
  rowspan : Option String
  text : String
  deriving DecidableEq

/-- A `<tr>` row: its `<td>` children in order. -/
structure Row where
  tds : List Cell
  deriving DecidableEq

/-- The `<table id="basic">` element: its `<tr>` children in order. -/
structure Table where
  rows : List Row
  deriving DecidableEq

/-- Truthiness of a found bs4 tag (`if zone_value_cell:`): a tag with no
children is falsy; for text-only cells that is empty text. -/
def tagTruthy (c : Cell) : Bool := c.text != ""

/-- Predicate of idx.py line 236: `tag.name == "td" and "Zone(s):" in
tag.get_text()` (raw text, no strip). -/
def zoneLabelPred (c : Cell) : Bool := strContains c.text "Zone(s):"

/-- Predicate of idx.py line 260: `"Flood Hazard Zone:" in
td.get_text(strip=True)`. -/
def floodLabelPred (c : Cell) : Bool := strContains (pyStrip c.text) "Flood Hazard Zone:"

/-- Depth-first search of `table.find(lambda ...)` (idx.py line 236):
first row (by index) whose cells contain a zone-label `<td>`, returning the
row index and the first matching cell. -/
def findCellAux : List Row → Nat → Option (Nat × Cell)
  | [], _ => none
  | row :: rest, i =>
    match row.tds.find? zoneLabelPred with
    | some c => some (i, c)
    | none => findCellAux rest (i + 1)

/-- The `zone_cell` lookup of idx.py line 236. -/
def findZoneCell (t : Table) : Option (Nat × Cell) := findCellAux t.rows 0

/-- Position search for the flood-label loop (idx.py lines 258-262):
index of the first matching cell in a row. -/
def findIdxAux : List Cell → Nat → Option Nat
  | [], _ => none
  | c :: rest, j => if floodLabelPred c then some j else findIdxAux rest (j + 1)

/-- Row-major scan of `for td in table.find_all("td")` (idx.py lines
259-262): position (row index, cell index) of the first flood-label cell in
document order. -/
def findFloodAux : List Row → Nat → Option (Nat × Nat)
  | [], _ => none
  | row :: rest, r =>
    match findIdxAux row.tds 0 with
    | some j => some (r, j)
    | none => findFloodAux rest (r + 1)

/-- The `flood_hazard_cell` scan of idx.py lines 258-262. -/
def findFloodCell (t : Table) : Option (Nat × Nat) := findFloodAux t.rows 0

/-- Helper for `pyInt`: read a nonempty digit run into a number. -/
def digitsToNatAux : List Char → Nat → Option Nat
  | [], acc => some acc
  | c :: cs, acc =>
    if c.isDigit then digitsToNatAux cs (acc * 10 + (c.toNat - 48)) else none

/-- Python `int(s)` on an optionally-signed decimal numeral string (the
whitespace tolerance of CPython is immaterial here and omitted); `none`
models the raised `ValueError`. -/
def pyInt (s : String) : Option Int :=
  match s.data with
  | [] => none
  | c :: cs =>
    if c == '-' then
      match cs with
      | [] => none
      | _ :: _ => (digitsToNatAux cs 0).map (fun n => -(n : Int))
    else (digitsToNatAux (c :: cs) 0).map (fun n => (n : Int))

/-- Python `int(zone_cell.get('rowspan', 1))` (idx.py line 239): default 1
when the attribute is absent, `ValueError` when the attribute string is not
an integer numeral. -/
def parseRowspan : Option String → Except PyErr Int
  | none => .ok 1
  | some s =>
    match pyInt s with
    | some n => .ok n
    | none => .error (.valueError s)

/-- The `for _ in range(rowspan - 1)` walk of idx.py lines 248-253.
`cur` is the index of `current_row` in the table (`none` once
`find_next_sibling` returned `None`); `k` is the number of iterations left.
Each iteration first reassigns `current_row = current_row.find_next_sibling("tr")`
-- which raises `AttributeError` when `current_row` is already `None` --
then, when a row was found, appends the stripped text of its first truthy
`<td>` (`current_row.find("td")`). -/
def zoneLoop (t : Table) : Option Nat → Nat → List String → Except PyErr (List String)
  | _, 0, acc => .ok acc
  | none, _ + 1, _ => .error (.attributeError "find_next_sibling")
  | some i, k + 1, acc =>
    match t.rows.get? (i + 1) with
    | none => zoneLoop t none k acc
    | some row =>
      match row.tds.head? with
      | none => zoneLoop t (some (i + 1)) k acc
      | some vc =>
        zoneLoop t (some (i + 1)) k (if tagTruthy vc then acc ++ [pyStrip vc.text] else acc)

/-- Zone-list reconstruction, idx.py lines 235-253: locate the zone-label
cell (absence gives `[]`), parse its rowspan, take the last `<td>` of the
label's own row as zone #1 (`current_row.find_all("td")[-1]`, raising
`IndexError` on an empty row), then walk `rowspan - 1` sibling rows. -/
def zonesPhase (t : Table) : Except PyErr (List String) :=
  match findZoneCell t with
  | none => .ok []
  | some (r, c) =>
    match parseRowspan c.rowspan with
    | .error e => .error e
    | .ok rs =>
      match t.rows.get? r with
      | none => .error (.attributeError "find_all")
      | some row =>
        match row.tds.getLast? with
        | none => .error .indexError
        | some vc =>
          zoneLoop t (some r) ((rs - 1).toNat)
            (if tagTruthy vc then [pyStrip vc.text] else [])

/-- Flood-hazard extraction, idx.py lines 257-267: when a flood-label cell
was found, `flood_hazard_cell.find_next_sibling("td").get_text(strip=True)`
-- raising `AttributeError` on `None` when the label has no next `<td>`
sibling in its row -- otherwise the literal `"Not Found"`. -/
def floodPhase (t : Table) : Except PyErr String :=
  match findFloodCell t with
  | none => .ok "Not Found"
  | some (r, j) =>
    match t.rows.get? r with
    | none => .error (.attributeError "get_text")
    | some row =>
      match row.tds.get? (j + 1) with
      | none => .error (.attributeError "get_text")
      | some sib => .ok (pyStrip sib.text)

/-- The whole table-extraction region, idx.py lines 235-269: the zone phase
runs first, then the flood phase; an exception in either aborts (it is
caught by the orchestrator's `except`). -/
def extractFields (t : Table) : Except PyErr (List String × String) :=
  match zonesPhase t with
  | .error e => .error e
  | .ok zs =>
    match floodPhase t with
    | .error e => .error e
    | .ok fl => .ok (zs, fl)

/-- The structured value returned by `scrape_and_extract_zones` when no
exception escapes it: either the populated result dict of idx.py lines
271-277 or an `{"error": msg}` dict (lines 172 and 283). -/
inductive ScrapeOutput
  | success (apn : String) (link : String) (zones : List String) (floodHazardZone : String)
  | failure (errorMsg : String)
  deriving DecidableEq

/-- Resource events of one `scrape_and_extract_zones` call: whether
`connect_over_cdp` succeeded (a remote browser connection was opened), how
many times `browser.close()` ran, and how many screenshot captures were
attempted. -/
structure ScrapeTrace where
  browserOpened : Bool
  closeCalls : Nat
  screenshotCalls : Nat
  deriving DecidableEq

/-- Trace of an invocation that never reached `connect_over_cdp`. -/
def emptyTrace : ScrapeTrace := ⟨false, 0, 0⟩

/-- Outcomes of the external (Playwright) operations awaited by
`scrape_and_extract_zones`, in source order.  Each fallible await is either
`.ok` or the exception it raises; `title` is the string `page.title()`
yields, `iframeFound` whether `page.frame(url=...)` is non-None, `href` the
value of `get_attribute("href")` (which may be `None`), and `soupTable` the
`soup.find("table", id="basic")` result for the report page's content. -/
structure NavWorld where
  connect : Except PyErr Unit
  newContext : Except PyErr Unit
  newPage : Except PyErr Unit
  goto1 : Except PyErr Unit
  title : String
  iframeFound : Bool
  ack : Except PyErr Unit
  fill : Except PyErr Unit
  press : Except PyErr Unit
  flowAttached : Except PyErr Unit
  scroll : Except PyErr Unit
  flowVisible : Except PyErr Unit
  linkVisible : Except PyErr Unit
  href : Except PyErr (Option String)
  goto2 : Except PyErr Unit
  loadState : Except PyErr Unit
  content : Except PyErr Unit
  soupTable : Option Table
  screenshot : Except PyErr Unit

/-- Sequencing of a fallible statement whose value is unused: an exception
short-circuits the rest of the block. -/
def seqE {α : Type} (s : Except PyErr Unit) (k : Except PyErr α) : Except PyErr α :=
  match s with
  | .error e => .error e
  | .ok _ => k

/-- The guarded region of idx.py lines 164-277 (the body of the `try`):
navigate to the portal, return a `Service unavailable` payload when the
title says so, require the ArcGIS iframe, tolerate any failure of the
acknowledgment click (lines 182-188), drive the search box, wait for the
result flow item and the report link, clean the href (`None` href raises
`AttributeError` at `href.replace`), follow it, and run the table
extraction on the rendered content. -/
def tryBlock (apn : String) (w : NavWorld) : Except PyErr ScrapeOutput :=
  seqE w.goto1 <|
  if strContains w.title "Service unavailable" then .ok (.failure "Service unavailable")
  else if w.iframeFound = false then .error (.exception "Iframe not found.")
  else
  seqE (match w.ack with | .error _ => .ok () | .ok _ => .ok ()) <|
  seqE w.fill <| seqE w.press <|
  seqE w.flowAttached <| seqE w.scroll <| seqE w.flowVisible <|
  seqE w.linkVisible <|
  match w.href with
  | .error e => .error e
  | .ok none => .error (.attributeError "replace")
  | .ok (some h) =>
    seqE w.goto2 <| seqE w.loadState <| seqE w.content <|
    match w.soupTable with
    | none => .error (.exception "Table with id basic not found")
    | some t =>
      match extractFields t with
      | .error e => .error e
      | .ok (zs, fl) => .ok (.success apn (removeSpaces h) zs fl)

/-- The `try`/`except`/`finally` of idx.py lines 164-286, entered with an
open browser, context and page.  A raised exception reaches the `except`
handler, which attempts a screenshot and then returns the
`{"error": str(e)}` payload; an exception raised by the screenshot itself
propagates.  The `finally` closes the browser exactly once on every one of
these paths. -/
def scrape_try_and_handlers (apn : String) (w : NavWorld) :
    Except PyErr ScrapeOutput × ScrapeTrace :=
  match tryBlock apn w with
  | .ok r => (.ok r, ⟨true, 1, 0⟩)
  | .error e =>
    match w.screenshot with
    | .ok _ => (.ok (.failure (PyErr.str e)), ⟨true, 1, 1⟩)
    | .error s => (.error s, ⟨true, 1, 1⟩)

/-- The `user_agents` list of idx.py lines 120-122: an empty placeholder
(`#insert user agents`). -/
def user_agents : List String := []

/-- Python `random.choice(xs)` with the randomness supplied as `pick`:
raises `IndexError` on an empty sequence. -/
def randomChoice (xs : List String) (pick : Nat) : Except PyErr String :=
  match xs.get? (pick % xs.length) with
  | some x => .ok x
  | none => .error .indexError

/-- `get_random_user_agent` of idx.py lines 118-123. -/
def get_random_user_agent (pick : Nat) : Except PyErr String :=
  randomChoice user_agents pick

/-- `scrape_and_extract_zones` of idx.py lines 153-286.  The prologue
(lines 155-162) runs before the `try`: `connect_over_cdp`, then the
`get_random_user_agent()` argument of `new_context`, then `new_context`
and `new_page`; an exception there propagates with no `browser.close()`
(the `finally` of lines 285-286 only guards the `try` block).  `connectUrl`
is threaded for fidelity; the connection outcome itself is `w.connect`. -/
def scrape_and_extract_zones (apn connectUrl : String) (pick : Nat) (w : NavWorld) :
    Except PyErr ScrapeOutput × ScrapeTrace :=
  match w.connect with
  | .error e => (.error e, ⟨false, 0, 0⟩)
  | .ok _ =>
    match get_random_user_agent pick with
    | .error e => (.error e, ⟨true, 0, 0⟩)
    | .ok _ =>
      match w.newContext with
      | .error e => (.error e, ⟨true, 0, 0⟩)
      | .ok _ =>
        match w.newPage with
        | .error e => (.error e, ⟨true, 0, 0⟩)
        | .ok _ => scrape_try_and_handlers apn w

/-- Body of the session-broker HTTP response: either a JSON object (a list
of string fields) or a body that `response.json()` fails to decode. -/
inductive BrokerBody
  | malformed
  | json (fields : List (String × String))
  deriving DecidableEq

/-- Outcome of `requests.post` to the broker (idx.py line 145): a raised
network error, or an HTTP response with a status and body. -/
inductive BrokerOutcome
  | networkError (e : PyErr)
  | response (status : Nat) (body : BrokerBody)
  deriving DecidableEq

/-- `create_browserbase_session` of idx.py lines 139-151: on 200/201 the
decoded JSON body is returned, on any other status `None` is returned (the
status and body are only printed); a network error or an undecodable 2xx
body raises. -/
def create_browserbase_session (w : BrokerOutcome) :
    Except PyErr (Option (List (String × String))) :=
  match w with
  | .networkError e => .error e
  | .response status body =>
    if status = 200 || status = 201 then
      match body with
      | .malformed => .error .jsonDecodeError
      | .json fields => .ok (some fields)
    else .ok none

/-- Python `d[k]` on the session dict: the first binding of `k`. -/
def lookupKey (k : String) (d : List (String × String)) : Option String :=
  (d.find? (fun kv => kv.fst == k)).map (fun kv => kv.snd)

/-- World of one `get_web_scraped_data` call: the broker outcome, the
random pick, and the navigation outcomes. -/
structure GWSWorld where
  broker : BrokerOutcome
  pick : Nat
  nav : NavWorld

/-- `get_web_scraped_data` of idx.py lines 288-298: create a session; a
falsy session (`None`, or an empty dict) yields the fixed failure payload;
otherwise read `session["connectUrl"]` (`KeyError` when absent) and run the
scrape. -/
def get_web_scraped_data (apn : String) (w : GWSWorld) :
    Except PyErr ScrapeOutput × ScrapeTrace :=
  match create_browserbase_session w.broker with
  | .error e => (.error e, emptyTrace)
  | .ok none => (.ok (.failure "Failed to create Browserbase session"), emptyTrace)
  | .ok (some d) =>
    if d.isEmpty then (.ok (.failure "Failed to create Browserbase session"), emptyTrace)
    else
      match lookupKey "connectUrl" d with
      | none => (.error (.keyError "connectUrl"), emptyTrace)
      | some url => scrape_and_extract_zones apn url w.pick w.nav

/-- Column list of `parcel_local_search` (idx.py lines 61-63). -/
def db_columns : List String :=
  ["AIN", "SitusFullA", "TaxRateAre", "SQFTmain1", "LegalDescr", "FLD_ZONE",
   "ZONE_SUBTY", "NAME", "PLNG_AREA", "TITLE_22",
   "Zone_Type_1", "Zone_Type_2", "Zone_Type_3", "Zone_Type_4", "Zone_Type_5",
   "Seismic_Quadrangle"]

/-- `parcel_local_search` of idx.py lines 45-66, over the outcome of the
sqlite interaction (`db`): a raised sqlite error propagates (there is no
`try` around it); `fetchone` yielding no row -- or a falsy (empty) row --
gives `None`; otherwise `dict(zip(columns, result))`. -/
def parcel_local_search (db : Except PyErr (Option (List String))) :
    Except PyErr (Option (List (String × String))) :=
  match db with
  | .error e => .error e
  | .ok none => .ok none
  | .ok (some row) =>
    if row.isEmpty then .ok none else .ok (some (db_columns.zip row))

/-- Outcome of the ChromaDB query inside `retrieve_context`. -/
inductive ChromaOutcome
  | raised (e : PyErr)
  | noDocs
  | docs (first : List String)
  deriving DecidableEq

/-- `retrieve_context` of idx.py lines 68-78: all its exceptions are caught
internally, so it always returns a string. -/
def retrieve_context (w : ChromaOutcome) : String :=
  match w with
  | .raised _ => "Error retrieving context."
  | .noDocs => "No relevant documents found."
  | .docs first => String.intercalate "\n" first

/-- `call_gemini_flash` of idx.py lines 80-114: the OpenRouter call is not
guarded, so its outcome (the generated text or a raised error) is exactly
the supplied world value. -/
def call_gemini_flash (gemini : Except PyErr String) : Except PyErr String :=
  gemini

/-- The response dict returned by the `/` endpoint: the tier-1 shape of
idx.py lines 316-321 (tagged `source: "database"`) or the web-scrape dict
after `web_data["source"] = "webscraper"` (lines 327-329). -/
inductive Response
  | database (parcel : List (String × String)) (contextText explanation : String)
  | webscraper (out : ScrapeOutput)
  deriving DecidableEq

/-- The `source` tag carried by a returned response dict. -/
def Response.source : Response → String
  | .database _ _ _ => "database"
  | .webscraper _ => "webscraper"

/-- World of one request to the `/` endpoint. -/
structure EndpointWorld where
  db : Except PyErr (Option (List String))
  chroma : ChromaOutcome
  gemini : Except PyErr String
  gws : GWSWorld

/-- Observable events of one request: whether the fallback
(`get_web_scraped_data`) was invoked, and the scrape trace. -/
structure EndpointTrace where
  fallbackAttempted : Bool
  scrape : ScrapeTrace
  deriving DecidableEq

/-- The fallback branch of the endpoint (idx.py lines 322-329): run the
scrape, tag the resulting dict with `source = "webscraper"`; an exception
out of `get_web_scraped_data` propagates past the endpoint. -/
def endpointFallback (apn : String) (w : GWSWorld) :
    Except PyErr Response × EndpointTrace :=
  match get_web_scraped_data apn w with
  | (.error e, tr) => (.error e, ⟨true, tr⟩)
  | (.ok out, tr) => (.ok (.webscraper out), ⟨true, tr⟩)

/-- `get_parcel_details_and_explanation` of idx.py lines 302-329: tier-1
lookup first; a truthy parcel dict takes the database path (whose
generation call may raise, unguarded); a falsy result falls back to the
scraper.  A raised sqlite error propagates before any fallback. -/
def get_parcel_details_and_explanation (apn : String) (w : EndpointWorld) :
    Except PyErr Response × EndpointTrace :=
  match parcel_local_search w.db with
  | .error e => (.error e, ⟨false, emptyTrace⟩)
  | .ok (some d) =>
    if d.isEmpty then endpointFallback apn w.gws
    else
      match call_gemini_flash w.gemini with
      | .error e => (.error e, ⟨false, emptyTrace⟩)
      | .ok expl => (.ok (.database d (retrieve_context w.chroma) expl), ⟨false, emptyTrace⟩)
  | .ok none => endpointFallback apn w.gws

/-- A cell found by the zone-label search satisfies the label predicate. -/
lemma findCellAux_spec : ∀ (rows : List Row) (i r : Nat) (c : Cell),
    findCellAux rows i = some (r, c) → zoneLabelPred c = true := by
  intro rows
  induction rows with
  | nil => intro i r c h; simp [findCellAux] at h
  | cons row rest ih =>
    intro i r c h
    rw [findCellAux] at h
    cases hf : row.tds.find? zoneLabelPred with
    | some c2 =>
      rw [hf] at h
      have hc : c2 = c := by
        have := h
        simp at this
        exact this.2
      exact hc ▸ List.find?_some hf
    | none =>
      rw [hf] at h
      exact ih (i + 1) r c h

/-- A zone-label cell is truthy: its text contains the label, hence is
nonempty. -/
lemma zoneLabelPred_truthy (c : Cell) (h : zoneLabelPred c = true) :
    tagTruthy c = true := by
  unfold tagTruthy
  cases hstr : c.text == "" with
  | false => simp [bne, hstr]
  | true =>
    exfalso
    have he : c.text = "" := eq_of_beq hstr
    rw [zoneLabelPred, he] at h
    exact absurd h (by decide)

/-- The row walk never changes the first element of a nonempty
accumulator: appended zones go to the back. -/
lemma zoneLoop_head (t : Table) :
    ∀ (k : Nat) (cur : Option Nat) (acc zs : List String),
      acc ≠ [] → zoneLoop t cur k acc = .ok zs → zs.head? = acc.head? := by
  intro k
  induction k with
  | zero =>
    intro cur acc zs _ h
    cases cur <;> simp [zoneLoop] at h <;> rw [h]
  | succ k ih =>
    intro cur acc zs hne h
    cases cur with
    | none => simp [zoneLoop] at h
    | some i =>
      rw [zoneLoop] at h
      split at h
      · exact ih none acc zs hne h
      · split at h
        · exact ih (some (i + 1)) acc zs hne h
        · split at h
          · rw [ih _ _ zs (by simp) h]
            cases acc with
            | nil => exact absurd rfl hne
            | cons a as => simp
          · exact ih (some (i + 1)) acc zs hne h

/-- Absence of any zone-label cell makes the search fail. -/
lemma findCellAux_eq_none : ∀ (rows : List Row) (i : Nat),
    (∀ row ∈ rows, ∀ c ∈ row.tds, zoneLabelPred c = false) →
    findCellAux rows i = none := by
  intro rows
  induction rows with
  | nil => intro i _; rfl
  | cons row rest ih =>
    intro i h
    rw [findCellAux]
    have hf : row.tds.find? zoneLabelPred = none := by
      rw [List.find?_eq_none]
      intro c hc
      simp [h row (by simp) c hc]
    rw [hf]
    exact ih (i + 1) (fun r hr c hc => h r (by simp [hr]) c hc)

/-- Absence of any flood-label cell in a row makes the index search fail. -/
lemma findIdxAux_eq_none : ∀ (cells : List Cell) (j : Nat),
    (∀ c ∈ cells, floodLabelPred c = false) → findIdxAux cells j = none := by
  intro cells
  induction cells with
  | nil => intro j _; rfl
  | cons c rest ih =>
    intro j h
    rw [findIdxAux]
    rw [h c (by simp)]
    simp
    exact ih (j + 1) (fun c2 hc2 => h c2 (by simp [hc2]))

/-- Absence of any flood-label cell makes the document-order scan fail. -/
lemma findFloodAux_eq_none : ∀ (rows : List Row) (r : Nat),
    (∀ row ∈ rows, ∀ c ∈ row.tds, floodLabelPred c = false) →
    findFloodAux rows r = none := by
  intro rows
  induction rows with
  | nil => intro r _; rfl
  | cons row rest ih =>
    intro r h
    rw [findFloodAux]
    rw [findIdxAux_eq_none row.tds 0 (fun c hc => h row (by simp) c hc)]
    exact ih (r + 1) (fun r2 hr2 c hc => h r2 (by simp [hr2]) c hc)

/-- With no zone-label cell the zone phase returns the empty list. -/
lemma zonesPhase_no_label (t : Table) (h : findZoneCell t = none) :
    zonesPhase t = .ok [] := by
  rw [zonesPhase, h]

/-- With no flood-label cell the flood phase returns the literal. -/
lemma floodPhase_no_label (t : Table) (h : findFloodCell t = none) :
    floodPhase t = .ok "Not Found" := by
  rw [floodPhase, h]

/-- A non-`None` result of `parcel_local_search` is a truthy (nonempty)
dict: the query's 16 columns are zipped against a nonempty row. -/
lemma parcel_some_nonempty (db : Except PyErr (Option (List String)))
    (d : List (String × String)) (h : parcel_local_search db = .ok (some d)) :
    d.isEmpty = false := by
  match db with
  | .error e => simp [parcel_local_search] at h
  | .ok none => simp [parcel_local_search] at h
  | .ok (some row) =>
    rw [parcel_local_search] at h
    cases hr : row.isEmpty with
    | true => rw [hr] at h; simp at h
    | false =>
      rw [hr] at h
      simp at h
      cases row with
      | nil => simp at hr
      | cons a as => rw [← h]; rfl

/-- Table of the first C6 scenario: a zone-label cell with `rowspan=3`;
three mutually-sibling rows each hold one data cell ("A1-1" next to the
label in its own row, then "A2-4" and "RD1.5" one per following row). -/
def c6TableSpanned : Table :=
  ⟨[⟨[⟨some "3", "Zone(s):"⟩, ⟨none, "A1-1"⟩]⟩, ⟨[⟨none, "A2-4"⟩]⟩, ⟨[⟨none, "RD1.5"⟩]⟩]⟩

/-- Table of the second C6 scenario: a zone-label cell with no `rowspan`
attribute and one data cell "C2" in the same row. -/
def c6TableSingle : Table := ⟨[⟨[⟨none, "Zone(s):"⟩, ⟨none, "C2"⟩]⟩]⟩

/-- C6: row-span reconstruction returns the three zone values in document
order for a `rowspan=3` label, and a missing `rowspan` attribute defaults
to 1, returning the single data-cell value. -/
theorem c6_rowspan_reconstruction :
    extractFields c6TableSpanned = .ok (["A1-1", "A2-4", "RD1.5"], "Not Found") ∧
    extractFields c6TableSingle = .ok (["C2"], "Not Found") :=
  ⟨rfl, rfl⟩

/-- Failing input of C3: a zone-label cell with `rowspan=3` whose row has a
data cell "A1-1" but no following sibling rows at all (two walk iterations
remain at the point of truncation). -/
def c3CrashTable : Table := ⟨[⟨[⟨some "3", "Zone(s):"⟩, ⟨none, "A1-1"⟩]⟩]⟩

/-- Boundary input of C3: identical but with `rowspan=2`, so the missing
sibling is discovered on the final walk iteration. -/
def c3BoundaryTable : Table := ⟨[⟨[⟨some "2", "Zone(s):"⟩, ⟨none, "A1-1"⟩]⟩]⟩

/-- C3: the claim says any truncation of the sibling-row walk yields the
partial zone list and never an error.  Evaluating the code at the failing
input: with `rowspan=3` and no sibling rows the walk's next iteration calls
`find_next_sibling` on `None` and the extraction raises `AttributeError`
instead of returning the partial list `["A1-1"]`; only a truncation at the
final iteration (the `rowspan=2` boundary input) yields the partial list. -/
theorem c3_partial_walk_eval :
    extractFields c3CrashTable = .error (.attributeError "find_next_sibling") ∧
    extractFields c3BoundaryTable = .ok (["A1-1"], "Not Found") :=
  ⟨rfl, rfl⟩

/-- C9: when the zone-label cell found by the scan is itself the last (or
only) `<td>` of its row, zone #1 -- the head of any returned zone list --
is the label cell's own stripped text, whose raw text contains
"Zone(s):" (the label cell is not excluded from `find_all("td")[-1]`). -/
theorem c9_label_row_first_zone (t : Table) (r : Nat) (c : Cell) (row : Row)
    (zs : List String)
    (h1 : findZoneCell t = some (r, c)) (h2 : t.rows.get? r = some row)
    (h3 : row.tds.getLast? = some c) (h4 : zonesPhase t = .ok zs) :
    zs.head? = some (pyStrip c.text) ∧ strContains c.text "Zone(s):" = true := by
  have hp : zoneLabelPred c = true := findCellAux_spec t.rows 0 r c h1
  have ht : tagTruthy c = true := zoneLabelPred_truthy c hp
  refine ⟨?_, hp⟩
  cases hrs : parseRowspan c.rowspan with
  | error e =>
    simp only [zonesPhase, h1, hrs] at h4
    simp at h4
  | ok rs =>
    simp only [zonesPhase, h1, hrs, h2, h3] at h4
    rw [ht] at h4
    simp at h4
    exact zoneLoop_head t (rs.toNat - 1) (some r) [pyStrip c.text] zs (by simp) h4

/-- Witness table for C9: the zone-label cell is the only cell of its row. -/
def c9WitnessTable : Table := ⟨[⟨[⟨none, "  Zone(s):  "⟩]⟩]⟩

/-- Witness for C9 at a concrete table whose label row holds only the label
cell: the single extracted zone is the label's own stripped text. -/
theorem c9_label_row_first_zone_witness :
    (["Zone(s):"] : List String).head? = some (pyStrip "  Zone(s):  ") ∧
    strContains "  Zone(s):  " "Zone(s):" = true :=
  c9_label_row_first_zone c9WitnessTable 0 ⟨none, "  Zone(s):  "⟩ ⟨[⟨none, "  Zone(s):  "⟩]⟩
    ["Zone(s):"] rfl rfl rfl rfl

/-- C10: when the document-order flood-label scan finds a cell that has no
following `<td>` sibling in its row, the whole extraction raises (the
`None` returned by `find_next_sibling` has `get_text` called on it),
unlike the absent-label case. -/
theorem c10_flood_sibling_error (t : Table) (r j : Nat) (row : Row)
    (h1 : findFloodCell t = some (r, j)) (h2 : t.rows.get? r = some row)
    (h3 : row.tds.get? (j + 1) = none) :
    ∃ e, extractFields t = .error e := by
  have hf : floodPhase t = .error (.attributeError "get_text") := by
    simp only [floodPhase, h1, h2, h3]
  cases hz : zonesPhase t with
  | error e => exact ⟨e, by simp only [extractFields, hz]⟩
  | ok zs => exact ⟨.attributeError "get_text", by simp only [extractFields, hz, hf]⟩

/-- Witness table for C10: the first (and only) flood-label cell sits at
the end of its row, in the second row of the table. -/
def c10WitnessTable : Table := ⟨[⟨[⟨none, "x"⟩]⟩, ⟨[⟨none, "Flood Hazard Zone:"⟩]⟩]⟩

/-- Witness for C10 at a concrete table: extraction yields an error. -/
theorem c10_flood_sibling_error_witness :
    ∃ e, extractFields c10WitnessTable = .error e :=
  c10_flood_sibling_error c10WitnessTable 1 0 ⟨[⟨none, "Flood Hazard Zone:"⟩]⟩ rfl rfl rfl

/-- Counterexample table for C7: no "Zone(s):" label cell anywhere, and a
"Flood Hazard Zone:" label cell with no following sibling cell. -/
def c7CexTable : Table := ⟨[⟨[⟨none, "Flood Hazard Zone:"⟩]⟩]⟩

/-- Counterexample to C7 as stated: this table has no zone-label cell, yet
the extractor errors (raised `AttributeError` in the flood phase) instead
of returning `zones = []` without error. -/
theorem c7_missing_labels_counterexample :
    (∀ row ∈ c7CexTable.rows, ∀ c ∈ row.tds, zoneLabelPred c = false) ∧
    extractFields c7CexTable = .error (.attributeError "get_text") :=
  ⟨by decide, rfl⟩

/-- C7 amended: a table with no zone-label cell yields `zones = []` without
error provided the flood phase itself does not raise, and a table with no
flood-label cell yields `floodHazardZone = "Not Found"` provided the
zone-row walk completes without raising. -/
theorem c7_missing_labels_amended (t u : Table) (f : String) (zs : List String)
    (h1 : ∀ row ∈ t.rows, ∀ c ∈ row.tds, zoneLabelPred c = false)
    (h2 : floodPhase t = .ok f)
    (h3 : ∀ row ∈ u.rows, ∀ c ∈ row.tds, floodLabelPred c = false)
    (h4 : zonesPhase u = .ok zs) :
    extractFields t = .ok ([], f) ∧ extractFields u = .ok (zs, "Not Found") := by
  constructor
  · have hz : zonesPhase t = .ok [] :=
      zonesPhase_no_label t (findCellAux_eq_none t.rows 0 h1)
    simp only [extractFields, hz, h2]
  · have hf : floodPhase u = .ok "Not Found" :=
      floodPhase_no_label u (findFloodAux_eq_none u.rows 0 h3)
    simp only [extractFields, h4, hf]

/-- Witness for amended C7 at two concrete tables: the empty table (no zone
label) and a one-cell table with neither label. -/
theorem c7_missing_labels_amended_witness :
    extractFields ⟨[]⟩ = .ok ([], "Not Found") ∧
    extractFields ⟨[⟨[⟨none, "R1"⟩]⟩]⟩ = .ok ([], "Not Found") :=
  c7_missing_labels_amended ⟨[]⟩ ⟨[⟨[⟨none, "R1"⟩]⟩]⟩ "Not Found" []
    (by decide) rfl (by decide) rfl

/-- Navigation world for the C1 evaluation: every external operation
succeeds (connect, context, page, both navigations, waits, an href, an
empty report table, screenshot).  Fields in declaration order. -/
def c1NavWorld : NavWorld :=
  ⟨.ok (), .ok (), .ok (), .ok (), "LADBS Atlas", true, .ok (), .ok (), .ok (),
   .ok (), .ok (), .ok (), .ok (), .ok (some "https://x.com/Parcel Profile Detail2"),
   .ok (), .ok (), .ok (), some ⟨[]⟩, .ok ()⟩

/-- C1: evaluation at the failing input.  With the CDP connection opened
(`connect_over_cdp` succeeded), `get_random_user_agent` -- evaluated as an
argument of `new_context`, before the `try`/`finally` -- raises
`IndexError` on the empty `user_agents` placeholder, so the invocation
propagates the exception with the browser opened and `browser.close()`
never called (close count 0, not 1). -/
theorem c1_browser_leak_eval :
    scrape_and_extract_zones "1234-001-002" "wss://connect.browserbase.com/x" 0 c1NavWorld =
      (.error .indexError, ⟨true, 0, 0⟩) :=
  rfl

/-- Broker world for the C4 counterexample: `requests.post` raises a
network error (navigation outcomes are irrelevant and all succeed). -/
def c4CexWorld : GWSWorld :=
  ⟨.networkError (.external "requests connection error"), 0,
   ⟨.ok (), .ok (), .ok (), .ok (), "LADBS Atlas", true, .ok (), .ok (), .ok (),
    .ok (), .ok (), .ok (), .ok (), .ok (some "h"), .ok (), .ok (), .ok (), some ⟨[]⟩, .ok ()⟩⟩

/-- Counterexample to C4 as stated: on a broker network error the
orchestrator does not return any failure payload (let alone one carrying
the identifier) -- the exception propagates uncaught (no browser opened). -/
theorem c4_provision_counterexample :
    get_web_scraped_data "1234-001-002" c4CexWorld =
      (.error (.external "requests connection error"), emptyTrace) ∧
    (get_web_scraped_data "1234-001-002" c4CexWorld).fst.toOption = none :=
  ⟨rfl, rfl⟩

/-- C4 amended: a non-2xx broker status makes the provisioner return
`None` (status and body only logged) and the orchestrator immediately
returns the fixed payload "Failed to create Browserbase session" (which
does not carry the identifier), with no browser opened; a broker network
error or a malformed 2xx body instead raises an exception that propagates
out of `get_web_scraped_data`, also with no browser opened. -/
theorem c4_provision_amended (apn : String) (w : GWSWorld) :
    (∀ s b, w.broker = .response s b → s ≠ 200 → s ≠ 201 →
      get_web_scraped_data apn w =
        (.ok (.failure "Failed to create Browserbase session"), emptyTrace)) ∧
    (∀ e, w.broker = .networkError e →
      get_web_scraped_data apn w = (.error e, emptyTrace)) ∧
    (∀ s, w.broker = .response s .malformed → (s = 200 ∨ s = 201) →
      get_web_scraped_data apn w = (.error .jsonDecodeError, emptyTrace)) := by
  refine ⟨?_, ?_, ?_⟩
  · intro s b hb hs1 hs2
    have hcreate : create_browserbase_session w.broker = .ok none := by
      rw [hb]
      simp [create_browserbase_session, hs1, hs2]
    simp only [get_web_scraped_data, hcreate]
  · intro e hb
    have hcreate : create_browserbase_session w.broker = .error e := by
      rw [hb]
      rfl
    simp only [get_web_scraped_data, hcreate]
  · intro s hb hs
    have hcreate : create_browserbase_session w.broker = .error .jsonDecodeError := by
      rw [hb]
      rcases hs with h | h <;> simp [create_browserbase_session, h]
    simp only [get_web_scraped_data, hcreate]

/-- Witness for amended C4: a 500 broker response yields the fixed failure
payload and no browser activity. -/
theorem c4_provision_amended_witness :
    get_web_scraped_data "1234-001-002"
      ⟨.response 500 (.json []), 0,
       ⟨.ok (), .ok (), .ok (), .ok (), "t", true, .ok (), .ok (), .ok (), .ok (), .ok (),
        .ok (), .ok (), .ok (some "h"), .ok (), .ok (), .ok (), some ⟨[]⟩, .ok ()⟩⟩ =
      (.ok (.failure "Failed to create Browserbase session"), emptyTrace) :=
  (c4_provision_amended "1234-001-002" _).1 500 (.json []) rfl (by decide) (by decide)

/-- Navigation world for the C5 counterexample: the first page load raises
a timeout, and the screenshot attempted by the `except` handler itself
raises. -/
def c5CexNavWorld : NavWorld :=
  ⟨.ok (), .ok (), .ok (), .error (.external "Timeout 60000ms exceeded"), "LADBS Atlas", true,
   .ok (), .ok (), .ok (), .ok (), .ok (), .ok (), .ok (), .ok (some "h"), .ok (), .ok (),
   .ok (), some ⟨[]⟩, .error (.external "screenshot failed")⟩

/-- Counterexample to C5 as stated: when the screenshot raises, its
exception replaces the navigation error -- the handled result is the
screenshot exception, not a failure payload carrying the underlying
message (the browser is still closed by the `finally`). -/
theorem c5_screenshot_counterexample :
    scrape_try_and_handlers "1234-001-002" c5CexNavWorld =
      (.error (.external "screenshot failed"), ⟨true, 1, 1⟩) ∧
    (scrape_try_and_handlers "1234-001-002" c5CexNavWorld).fst ≠
      .ok (.failure "Timeout 60000ms exceeded") :=
  ⟨rfl, fun h => Except.noConfusion h⟩

/-- C5 amended: when the `try` block raises, a screenshot is attempted; if
the capture succeeds the orchestrator returns the failure payload carrying
the underlying message, but if the capture itself raises, its exception
propagates in place of the original error (the browser is closed either
way). -/
theorem c5_screenshot_amended (apn : String) (w : NavWorld) (e : PyErr)
    (h : tryBlock apn w = .error e) :
    (w.screenshot = .ok () →
      scrape_try_and_handlers apn w = (.ok (.failure (PyErr.str e)), ⟨true, 1, 1⟩)) ∧
    (∀ s, w.screenshot = .error s →
      scrape_try_and_handlers apn w = (.error s, ⟨true, 1, 1⟩)) := by
  constructor
  · intro hs
    simp only [scrape_try_and_handlers, h, hs]
  · intro s hs
    simp only [scrape_try_and_handlers, h, hs]

/-- Navigation world for the C5 witness: the first page load raises and
the screenshot succeeds. -/
def c5WitnessNavWorld : NavWorld :=
  ⟨.ok (), .ok (), .ok (), .error (.external "Timeout 60000ms exceeded"), "LADBS Atlas", true,
   .ok (), .ok (), .ok (), .ok (), .ok (), .ok (), .ok (), .ok (some "h"), .ok (), .ok (),
   .ok (), some ⟨[]⟩, .ok ()⟩

/-- Witness for amended C5: with a successful capture the failure payload
carries the underlying timeout message. -/
theorem c5_screenshot_amended_witness :
    scrape_try_and_handlers "1234-001-002" c5WitnessNavWorld =
      (.ok (.failure "Timeout 60000ms exceeded"), ⟨true, 1, 1⟩) :=
  (c5_screenshot_amended "1234-001-002" c5WitnessNavWorld
    (.external "Timeout 60000ms exceeded") rfl).1 rfl

/-- Endpoint world for the C2 counterexample: the identifier misses the
local store, the broker returns 201 with a connect URL, and the CDP
connect succeeds -- so the fallback reaches the empty user-agent list. -/
def c2CexEndpointWorld : EndpointWorld :=
  ⟨.ok none, .noDocs, .ok "explanation",
   ⟨.response 201 (.json [("connectUrl", "wss://connect.browserbase.com/x")]), 0,
    ⟨.ok (), .ok (), .ok (), .ok (), "LADBS Atlas", true, .ok (), .ok (), .ok (), .ok (),
     .ok (), .ok (), .ok (), .ok (some "h"), .ok (), .ok (), .ok (), some ⟨[]⟩, .ok ()⟩⟩⟩

/-- Counterexample to C2 as stated: this request returns no response dict
at all -- the `IndexError` raised after the browser connection is opened
propagates uncaught past the endpoint (no source tag, no structured
failure payload). -/
theorem c2_source_tag_counterexample :
    get_parcel_details_and_explanation "1234-001-002" c2CexEndpointWorld =
      (.error .indexError, ⟨true, ⟨true, 0, 0⟩⟩) ∧
    (get_parcel_details_and_explanation "1234-001-002" c2CexEndpointWorld).fst.toOption = none :=
  ⟨rfl, rfl⟩

/-- C2 amended: a source-tagged response dict is returned when tier-1
succeeds (tag "database"), and when the fallback's session creation fails
with a non-2xx broker status (tag "webscraper", fixed failure payload).
Any fallback invocation that opens a browser instead raises the
`IndexError` of the empty user-agent placeholder, which propagates
uncaught past the endpoint (as do broker network/JSON faults, per C4). -/
theorem c2_source_tag_amended (apn : String) (w : EndpointWorld) :
    (∀ d expl, parcel_local_search w.db = .ok (some d) → w.gemini = .ok expl →
      get_parcel_details_and_explanation apn w =
        (.ok (.database d (retrieve_context w.chroma) expl), ⟨false, emptyTrace⟩) ∧
      Response.source (.database d (retrieve_context w.chroma) expl) = "database") ∧
    (∀ s b, w.db = .ok none → w.gws.broker = .response s b → s ≠ 200 → s ≠ 201 →
      get_parcel_details_and_explanation apn w =
        (.ok (.webscraper (.failure "Failed to create Browserbase session")), ⟨true, emptyTrace⟩) ∧
      Response.source (.webscraper (.failure "Failed to create Browserbase session")) = "webscraper") ∧
    (∀ s flds url, w.db = .ok none → w.gws.broker = .response s (.json flds) →
      (s = 200 ∨ s = 201) → lookupKey "connectUrl" flds = some url →
      w.gws.nav.connect = .ok () →
      (get_parcel_details_and_explanation apn w).fst = .error .indexError) := by
  refine ⟨?_, ?_, ?_⟩
  · intro d expl hd hg
    have hne : d.isEmpty = false := parcel_some_nonempty w.db d hd
    refine ⟨?_, rfl⟩
    simp [get_parcel_details_and_explanation, hd, hne, call_gemini_flash, hg]
  · intro s b hdb hb hs1 hs2
    have hP : parcel_local_search w.db = .ok none := by rw [hdb]; rfl
    have hcreate : create_browserbase_session w.gws.broker = .ok none := by
      rw [hb]
      simp [create_browserbase_session, hs1, hs2]
    refine ⟨?_, rfl⟩
    simp only [get_parcel_details_and_explanation, hP, endpointFallback,
      get_web_scraped_data, hcreate]
  · intro s flds url hdb hb hs hlk hc
    have hP : parcel_local_search w.db = .ok none := by rw [hdb]; rfl
    have hcreate : create_browserbase_session w.gws.broker = .ok (some flds) := by
      rw [hb]
      rcases hs with h | h <;> simp [create_browserbase_session, h]
    have hflds : flds.isEmpty = false := by
      cases flds with
      | nil => simp [lookupKey] at hlk
      | cons a as => rfl
    have hscrape : scrape_and_extract_zones apn url w.gws.pick w.gws.nav =
        (.error .indexError, ⟨true, 0, 0⟩) := by
      simp only [scrape_and_extract_zones, hc, get_random_user_agent, randomChoice,
        user_agents, List.get?_nil]
    simp [get_parcel_details_and_explanation, hP, endpointFallback,
      get_web_scraped_data, hcreate, hflds, hlk, hscrape]

/-- Endpoint world for the C2 witness: local miss, broker replies 500. -/
def c2WitnessWorld : EndpointWorld :=
  ⟨.ok none, .noDocs, .ok "explanation",
   ⟨.response 500 (.json []), 0,
    ⟨.ok (), .ok (), .ok (), .ok (), "t", true, .ok (), .ok (), .ok (), .ok (), .ok (),
     .ok (), .ok (), .ok (some "h"), .ok (), .ok (), .ok (), some ⟨[]⟩, .ok ()⟩⟩⟩

/-- Witness for amended C2: the 500-status fallback returns the tagged
failure payload. -/
theorem c2_source_tag_amended_witness :
    get_parcel_details_and_explanation "1234-001-002" c2WitnessWorld =
      (.ok (.webscraper (.failure "Failed to create Browserbase session")), ⟨true, emptyTrace⟩) ∧
    Response.source (.webscraper (.failure "Failed to create Browserbase session")) = "webscraper" :=
  (c2_source_tag_amended "1234-001-002" c2WitnessWorld).2.1 500 (.json [])
    rfl rfl (by decide) (by decide)

/-- C8: tier-1 exclusivity.  When the local lookup returns a record the
fallback is never attempted; when the sqlite interaction raises, the error
propagates and the fallback is not attempted either; and the fallback is
attempted only when the lookup returned `None` (a local miss). -/
theorem c8_tier1_exclusivity (apn : String) (w : EndpointWorld) :
    (∀ d, parcel_local_search w.db = .ok (some d) →
      (get_parcel_details_and_explanation apn w).snd.fallbackAttempted = false) ∧
    (∀ e, w.db = .error e →
      (get_parcel_details_and_explanation apn w).snd.fallbackAttempted = false ∧
      (get_parcel_details_and_explanation apn w).fst = .error e) ∧
    ((get_parcel_details_and_explanation apn w).snd.fallbackAttempted = true →
      parcel_local_search w.db = .ok none) := by
  cases hdb : w.db with
  | error e =>
    have hP : parcel_local_search w.db = .error e := by rw [hdb]; rfl
    refine ⟨?_, ?_, ?_⟩
    · intro d h
      simp [parcel_local_search] at h
    · intro e2 h2
      injection h2 with h3
      subst h3
      constructor
      · simp only [get_parcel_details_and_explanation, hP]
      · simp only [get_parcel_details_and_explanation, hP]
    · intro h
      simp only [get_parcel_details_and_explanation, hP] at h
      simp at h
  | ok orow =>
    cases orow with
    | none =>
      have hP : parcel_local_search w.db = .ok none := by rw [hdb]; rfl
      refine ⟨?_, ?_, ?_⟩
      · intro d h
        simp [parcel_local_search] at h
      · intro e2 h2
        exact Except.noConfusion h2
      · intro _
        rfl
    | some row =>
      cases hre : row.isEmpty with
      | true =>
        have hP : parcel_local_search w.db = .ok none := by
          rw [hdb]
          simp [parcel_local_search, hre]
        refine ⟨?_, ?_, ?_⟩
        · intro d h
          simp [parcel_local_search, hre] at h
        · intro e2 h2
          exact Except.noConfusion h2
        · intro _
          simp [parcel_local_search, hre]
      | false =>
        have hP : parcel_local_search w.db = .ok (some (db_columns.zip row)) := by
          rw [hdb]
          simp [parcel_local_search, hre]
        have hne : (db_columns.zip row).isEmpty = false :=
          parcel_some_nonempty w.db _ hP
        cases hg : w.gemini with
        | error ge =>
          refine ⟨?_, ?_, ?_⟩
          · intro d h
            simp [get_parcel_details_and_explanation, hP, hne, call_gemini_flash, hg]
          · intro e2 h2
            exact Except.noConfusion h2
          · intro h
            simp [get_parcel_details_and_explanation, hP, hne, call_gemini_flash, hg] at h
        | ok expl =>
          refine ⟨?_, ?_, ?_⟩
          · intro d h
            simp [get_parcel_details_and_explanation, hP, hne, call_gemini_flash, hg]
          · intro e2 h2
            exact Except.noConfusion h2
          · intro h
            simp [get_parcel_details_and_explanation, hP, hne, call_gemini_flash, hg] at h

/-- Endpoint world for the C8 witness: the identifier is present in the
local store. -/
def c8WitnessWorld : EndpointWorld :=
  ⟨.ok (some ["1234-001-002"]), .noDocs, .ok "explanation",
   ⟨.response 201 (.json [("connectUrl", "wss://c")]), 0,
    ⟨.ok (), .ok (), .ok (), .ok (), "t", true, .ok (), .ok (), .ok (), .ok (), .ok (),
     .ok (), .ok (), .ok (some "h"), .ok (), .ok (), .ok (), some ⟨[]⟩, .ok ()⟩⟩⟩

/-- Witness for C8: with a present record the fallback is not attempted. -/
theorem c8_tier1_exclusivity_witness :
    (get_parcel_details_and_explanation "1234-001-002" c8WitnessWorld).snd.fallbackAttempted =
      false :=
  (c8_tier1_exclusivity "1234-001-002" c8WitnessWorld).1 [("AIN", "1234-001-002")] rfl
